import Mathlib

/-!
Verification of the batch inference and diagnostic pipeline in
`predict.py` (AHM-Health-NodeJS).

The pipeline is shallowly embedded: Python scalar values become the
inductive type PyVal, Python floats are idealised as rationals (with NaN
and the infinities kept as separate constructors, so every PyVal.float
is finite), records become association lists from field names to PyVal,
and the opaque model objects become injected prediction functions.  All
definitions are translated function-by-function from the source file.
-/

attribute [local semireducible] Rat.add Rat.mul Rat.inv Rat.sub Rat.ofScientific

/-- Model of a Python scalar value as it can appear in a JSON record or a
prediction map: None, a bool, an int, a finite float (idealised as a
rational), NaN, an infinity, a string, or any other object (list, dict,
...) on which float() raises TypeError. -/
inductive PyVal where
  | null : PyVal
  | bool : Bool → PyVal
  | int : ℤ → PyVal
  | float : ℚ → PyVal
  | nan : PyVal
  | inf : PyVal
  | str : String → PyVal
  | other : PyVal
deriving DecidableEq

/-- Result of Python float() applied to a string: a finite value, NaN or
an infinity. -/
inductive FloatLit where
  | finite : ℚ → FloatLit
  | nan : FloatLit
  | inf : FloatLit
deriving DecidableEq

/-- Whitespace recognised when float() strips a string argument. -/
def isSpaceChar (c : Char) : Bool :=
  c == ' ' || c == '\t' || c == '\n' || c == '\r'

/-- Strip leading and trailing whitespace from a character list. -/
def stripChars (cs : List Char) : List Char :=
  ((cs.dropWhile isSpaceChar).reverse.dropWhile isSpaceChar).reverse

/-- Split a character list at the first character satisfying sep; the
second component is none when no separator occurs. -/
def splitFirst (sep : Char → Bool) : List Char → List Char × Option (List Char)
  | [] => ([], Option.none)
  | c :: rest =>
    if sep c then ([], some rest)
    else
      let r := splitFirst sep rest
      (c :: r.1, r.2)

/-- Numeric value of a digit list (most significant first). -/
def digitsVal (cs : List Char) : ℕ :=
  cs.foldl (fun acc c => acc * 10 + (c.toNat - 48)) 0

/-- Parse an optionally signed run of decimal digits (the exponent part
of a float literal). -/
def parseSignedDigits (cs : List Char) : Option ℤ :=
  match cs with
  | '+' :: rest =>
    if rest.isEmpty then Option.none
    else if rest.all Char.isDigit then some (digitsVal rest) else Option.none
  | '-' :: rest =>
    if rest.isEmpty then Option.none
    else if rest.all Char.isDigit then some (-(digitsVal rest : ℤ)) else Option.none
  | _ =>
    if cs.isEmpty then Option.none
    else if cs.all Char.isDigit then some (digitsVal cs) else Option.none

/-- Parse an unsigned decimal float body: digits, an optional decimal
point with fraction digits, and an optional exponent introduced by e or
E.  At least one mantissa digit is required, mirroring CPython's float()
grammar (underscores and unicode digits are not modelled). -/
def parseUnsignedDecimal (cs : List Char) : Option ℚ :=
  let mant := splitFirst (fun c => c == 'e' || c == 'E') cs
  let ipfp := splitFirst (fun c => c == '.') mant.1
  let ip := ipfp.1
  let fp := (ipfp.2).getD []
  if !(ip.all Char.isDigit) then Option.none
  else if !(fp.all Char.isDigit) then Option.none
  else if ip.isEmpty && fp.isEmpty then Option.none
  else
    let base : ℚ := (digitsVal ip : ℚ) + (digitsVal fp : ℚ) / ((10 : ℚ) ^ fp.length)
    match mant.2 with
    | Option.none => some base
    | some ecs =>
      match parseSignedDigits ecs with
      | Option.none => Option.none
      | some e =>
        if e ≥ 0 then some (base * (10 : ℚ) ^ e.toNat)
        else some (base / ((10 : ℚ) ^ (-e).toNat))

/-- Sign handling of float() on a string: an optional leading plus or
minus together with the numeric value of the sign. -/
def takeSign (cs : List Char) : ℚ × List Char :=
  match cs with
  | [] => (1, [])
  | c :: rest =>
    if c = '+' then (1, rest)
    else if c = '-' then (-1, rest)
    else (1, c :: rest)

/-- Model of Python float(s) on a string: strip whitespace, take an
optional sign, then either an inf/nan word or a decimal literal. -/
def parseFloatLit (s : String) : Option FloatLit :=
  let signed := takeSign (stripChars s.data)
  let body := signed.2
  let lower := body.map Char.toLower
  if lower = "inf".data ∨ lower = "infinity".data then some FloatLit.inf
  else if lower = "nan".data then some FloatLit.nan
  else
    match parseUnsignedDecimal body with
    | some q => some (FloatLit.finite (signed.1 * q))
    | Option.none => Option.none

/-- Check if a value is a valid number and not null (is_valid_number in
predict.py): None fails; float(value) must succeed and produce a value
that is neither NaN nor infinite.  bool succeeds because Python bool is
a subclass of int; a string succeeds when it parses as a finite float;
anything on which float() raises ValueError or TypeError fails. -/
def is_valid_number (value : PyVal) : Bool :=
  match value with
  | PyVal.null => false
  | PyVal.bool _ => true
  | PyVal.int _ => true
  | PyVal.float _ => true
  | PyVal.nan => false
  | PyVal.inf => false
  | PyVal.str s =>
    match parseFloatLit s with
    | some (FloatLit.finite _) => true
    | some FloatLit.nan => false
    | some FloatLit.inf => false
    | Option.none => false
  | PyVal.other => false

/-- The finite result of Python float(value), when it succeeds. -/
def pyFloat (value : PyVal) : Option ℚ :=
  match value with
  | PyVal.bool b => some (if b then 1 else 0)
  | PyVal.int n => some (n : ℚ)
  | PyVal.float q => some q
  | PyVal.str s =>
    match parseFloatLit s with
    | some (FloatLit.finite q) => some q
    | _ => Option.none
  | _ => Option.none

/-- Python isinstance(x, (int, float)): true for ints, floats, and bools
(bool is a subclass of int). -/
def isNumericType (value : PyVal) : Bool :=
  match value with
  | PyVal.bool _ => true
  | PyVal.int _ => true
  | PyVal.float _ => true
  | _ => false

/-- Model of Python str(value).  The rendering of a finite float is
abstracted: the embedding idealises floats as rationals, so the exact
shortest-roundtrip digit string of CPython is out of scope; integral
rationals are rendered the way CPython renders the corresponding float
and other rationals are rendered as fractions. -/
def pyStr (value : PyVal) : String :=
  match value with
  | PyVal.null => "None"
  | PyVal.bool b => if b then "True" else "False"
  | PyVal.int n => toString n
  | PyVal.float q => if q.den = 1 then toString q.num ++ ".0" else toString q
  | PyVal.nan => "nan"
  | PyVal.inf => "inf"
  | PyVal.str s => s
  | PyVal.other => "<object>"

example : is_valid_number (PyVal.str "42") = true := by decide
example : is_valid_number (PyVal.str "abc") = false := by decide
example : is_valid_number (PyVal.str "Insufficient Data") = false := by decide
example : is_valid_number (PyVal.str " -7.25e1 ") = true := by decide
example : pyFloat (PyVal.str " -7.25e1 ") = some (-145/2) := by decide
example : is_valid_number (PyVal.str "inf") = false := by decide
example : is_valid_number (PyVal.str "NaN") = false := by decide
example : is_valid_number PyVal.null = false := by decide
example : pyFloat (PyVal.str "79.9") = some (799/10) := by decide

/-- Calculate mean of values, handling null values (safe_mean in
predict.py): keep the entries accepted by is_valid_number, convert them
with float(), return None when none survive and the arithmetic mean
otherwise.  float() is total on valid entries, so the filterMap below
keeps exactly the valid entries. -/
def safe_mean (values : List PyVal) : Option ℚ :=
  let valid_values := (values.filter is_valid_number).filterMap pyFloat
  if valid_values.isEmpty then Option.none
  else some (valid_values.sum / (valid_values.length : ℚ))

/-- Evaluate machine condition with null value handling
(evaluate_machine_condition in predict.py). -/
def evaluate_machine_condition (temperature vibration : Option ℚ) : String :=
  match temperature, vibration with
  | Option.none, _ => "Unknown Condition - Insufficient Data"
  | _, Option.none => "Unknown Condition - Insufficient Data"
  | some t, some v =>
    if t < 80 ∧ v < 1.8 then "Safe Condition"
    else if t < 100 ∧ v < 2.8 then "Maintain Condition"
    else "Repair Condition"

/-- Detect temperature anomalies with null value handling
(detect_temperature_anomaly in predict.py). -/
def detect_temperature_anomaly (temperature : Option ℚ) : String :=
  match temperature with
  | Option.none => "Unable to analyze temperature - Missing Data"
  | some t =>
    if t < 80 then "No significant temperature anomaly detected"
    else if 80 ≤ t ∧ t < 100 then "Moderate Overheating - Check Lubrication"
    else if 100 ≤ t ∧ t < 120 then
      "Significant Overheating - Possible Misalignment or Bearing Wear"
    else "Critical Overheating - Immediate Repair Needed"

/-- Detect vibration anomalies with null value handling
(detect_vibration_anomaly in predict.py). -/
def detect_vibration_anomaly (vibration : Option ℚ) : String :=
  match vibration with
  | Option.none => "Unable to analyze vibration - Missing Data"
  | some v =>
    if v < 1.8 then "No significant vibration anomaly detected"
    else if 1.8 ≤ v ∧ v < 2.8 then "Unbalance Fault"
    else if 2.8 ≤ v ∧ v < 4.5 then "Misalignment Fault"
    else if 4.5 ≤ v ∧ v < 7.1 then "Looseness Fault"
    else "Bearing Fault or Gear Mesh Fault"

/-- A JSON record: an association list from field names to values.  A
Python dict has unique keys, and lookup returns the first binding. -/
abbrev PyRecord : Type := List (String × PyVal)

/-- Python dict.get(key): the bound value, or None when absent. -/
def getVal (record : PyRecord) (key : String) : PyVal :=
  (List.lookup key record).getD PyVal.null

/-- Substring test on strings (the Python in operator), via the list
infix relation on the underlying characters. -/
def strContains (haystack needle : String) : Bool :=
  decide (needle.data <:+: haystack.data)

/-- The inner complete_analysis dict assembled at lines 110-119 of
predict.py.  Its keys are exactly machine_condition,
temperature_analysis, vibration_analysis, data_completeness and
timestamp; in particular it has NO overall_health key.  The timestamp
field is wall-clock output at the boundary and is not part of the
embedded state. -/
structure CompleteAnalysis where
  machine_condition : String
  temperature_analysis : String
  vibration_analysis : String
  temperature_completeness : String
  vibration_completeness : String
deriving DecidableEq

/-- The full return value of analyze_health in predict.py: the inner
complete_analysis dict together with the separately stored per-record
overall_health. -/
structure HealthInfo where
  complete_analysis : CompleteAnalysis
  overall_health : String
deriving DecidableEq

/-- Python analysis.get(key, default) on a complete_analysis dict, for
the string-valued keys: the dict holds machine_condition,
temperature_analysis and vibration_analysis as strings, and any other
key — in particular overall_health, which the dict does not contain —
yields the default.  (The data_completeness and timestamp keys hold
non-string values and are never read through this accessor in the
source.) -/
def completeAnalysisGetS (analysis : CompleteAnalysis) (key default : String) : String :=
  if key = "machine_condition" then analysis.machine_condition
  else if key = "temperature_analysis" then analysis.temperature_analysis
  else if key = "vibration_analysis" then analysis.vibration_analysis
  else default

/-- Analyze health with null value handling (analyze_health in
predict.py): average the temperature fields and the vibration fields
with safe_mean (each list pre-filtered through is_valid_number exactly
as in the source), evaluate the rule engine, and derive the per-record
overall_health, returned alongside — not inside — the complete_analysis
dict. -/
def analyze_health (input_data : PyRecord) : HealthInfo :=
  let temp_values := [getVal input_data "temperature_one", getVal input_data "temperature_two"]
  let avg_temp := safe_mean (temp_values.filter is_valid_number)
  let vib_values := [getVal input_data "vibration_x", getVal input_data "vibration_y",
    getVal input_data "vibration_z"]
  let avg_vibration := safe_mean (vib_values.filter is_valid_number)
  let condition := evaluate_machine_condition avg_temp avg_vibration
  let overall_health :=
    if strContains condition "Unknown Condition" then "Unknown"
    else if condition = "Safe Condition" then "Healthy" else "Unhealthy"
  { complete_analysis :=
      { machine_condition := condition
        temperature_analysis := detect_temperature_anomaly avg_temp
        vibration_analysis := detect_vibration_anomaly avg_vibration
        temperature_completeness := if avg_temp.isSome then "Complete" else "Incomplete"
        vibration_completeness := if avg_vibration.isSome then "Complete" else "Incomplete" }
    overall_health := overall_health }

example : safe_mean [PyVal.int 10, PyVal.str "abc", PyVal.int 20] = some 15 := by decide
example : safe_mean [] = Option.none := by decide
example : safe_mean [PyVal.null, PyVal.str "abc"] = Option.none := by decide
example : evaluate_machine_condition (some 79.9) (some 1.7) = "Safe Condition" := by decide
example : evaluate_machine_condition (some 80) (some 1.7) = "Maintain Condition" := by decide
example : evaluate_machine_condition Option.none (some 1) =
    "Unknown Condition - Insufficient Data" := by decide
example :
    (analyze_health [("temperature_one", PyVal.float 70), ("vibration_x", PyVal.float 1)]
      ).overall_health = "Healthy" := by decide
example : (analyze_health []).overall_health = "Unknown" := by decide

/-- The configured model names, in registration order (model_names in
predict.py). -/
def model_names : List String :=
  ["temperature_model", "vibration_model", "magnetic_flux_model",
   "audible_sound_model", "ultra_sound_model"]

/-- The feature sets used by each model (feature_sets in predict.py). -/
def feature_sets : List (String × List String) :=
  [("temperature_model", ["temperature_one", "temperature_two"]),
   ("vibration_model", ["vibration_x", "vibration_y", "vibration_z"]),
   ("magnetic_flux_model", ["magnetic_flux_x", "magnetic_flux_y", "magnetic_flux_z"]),
   ("audible_sound_model", ["vibration_x", "vibration_y", "vibration_z", "audible_sound"]),
   ("ultra_sound_model", ["vibration_x", "vibration_y", "vibration_z", "ultra_sound"])]

/-- Required feature list of a model (feature_sets[model_name]). -/
def featuresOf (model_name : String) : List String :=
  (List.lookup model_name feature_sets).getD []

/-- Replace every occurrence of pat by rep in a character list, left to
right and non-overlapping, as Python str.replace does.  The extra fuel
argument only keeps the recursion structural; fuel equal to the length
of the list always suffices. -/
def replaceAllFuel (pat rep : List Char) : ℕ → List Char → List Char
  | _, [] => []
  | 0, l => l
  | fuel + 1, c :: rest =>
    if pat.isPrefixOf (c :: rest) then
      rep ++ replaceAllFuel pat rep fuel (List.drop pat.length (c :: rest))
    else
      c :: replaceAllFuel pat rep fuel rest

/-- Python s.replace(pat, rep). -/
def pyReplace (s pat rep : String) : String :=
  String.mk (replaceAllFuel pat.data rep.data s.data.length s.data)

/-- The key under which a model's prediction is stored:
model_name.replace(mdlsuffix, empty) in predict.py. -/
def modelKey (model_name : String) : String :=
  pyReplace model_name "_model" ""

/-- Number of occurrences of x in l under structural equality.  On the
float/string values that populate prediction maps this coincides with
Python ==, the equality used by collections.Counter. -/
def occCount (l : List PyVal) (x : PyVal) : ℕ :=
  l.countP (fun y => decide (y = x))

/-- Model of Counter(l).most_common(1)[0][0]: a Counter is an
insertion-ordered dict of counts and most_common sorts it stably by
descending count, so the winner is the first element of l whose count in
l is maximal. -/
def firstMost (l : List PyVal) : Option PyVal :=
  l.find? (fun x => l.all (fun y => decide (occCount l y ≤ occCount l x)))

/-- Arithmetic mean of the float() images of a list of values
(float(np.mean(...)) over Python numbers). -/
def pyMean (l : List PyVal) : ℚ :=
  let vals := l.filterMap pyFloat
  vals.sum / (vals.length : ℚ)

/-- Consensus value for one model across the batch: the body of the
per-model loop of aggregate_predictions in predict.py.  The values of
the model's key are collected across the per-record maps, filtered by
is_valid_number, and then either the empty-survivor sentinel, the mean
(all survivors of Python numeric type), or the majority vote applies.
The vote branch is total here although Counter over a non-empty list
never fails. -/
def aggModel (key : String) (predictions_list : List PyRecord) : PyVal :=
  let model_predictions := predictions_list.filterMap (List.lookup key)
  let valid_predictions := model_predictions.filter is_valid_number
  if valid_predictions.isEmpty then PyVal.str "Insufficient Data"
  else if valid_predictions.all isNumericType then PyVal.float (pyMean valid_predictions)
  else
    match firstMost valid_predictions with
    | some most_common => PyVal.str (pyStr most_common)
    | Option.none => PyVal.str "Insufficient Data"

/-- Aggregate predictions with null value handling (aggregate_predictions
in predict.py): one consensus entry per configured model, keyed by the
stripped model name. -/
def aggregate_predictions (predictions_list : List PyRecord) : List (String × PyVal) :=
  model_names.map (fun model_name =>
    (modelKey model_name, aggModel (modelKey model_name) predictions_list))

/-- A model's raw prediction: numeric (numpy integer or floating) or any
other object, normalised to a string. -/
inductive PredResult where
  | num : ℚ → PredResult
  | label : String → PredResult
deriving DecidableEq

/-- The injected prediction capability of one model: called on the named
feature vector, it either returns a prediction or raises an exception
carrying a message. -/
def PredictFn : Type := List (String × ℚ) → Except String PredResult

/-- The family of loaded models: one prediction capability per model
name (the models dict in predict.py). -/
def ModelFns : Type := String → PredictFn

/-- Walk the required features in order, looking each up in the record;
stop at the first one that fails is_valid_number (the missing_features
break in predict.py), otherwise build the named feature vector passed to
the model. -/
def collectFeatures (record : PyRecord) : List String → Option (List (String × ℚ))
  | [] => some []
  | f :: fs =>
    let value := getVal record f
    if is_valid_number value then
      match collectFeatures record fs with
      | some rest => some ((f, (pyFloat value).getD 0) :: rest)
      | Option.none => Option.none
    else Option.none

/-- Per-record, per-model invocation: the body of the inner loop of
predict_from_models in predict.py.  Invalid input short-circuits to the
"Insufficient Data" sentinel before the model is consulted; a raised
exception is caught and becomes the "Prediction Error: " sentinel;
numeric predictions are normalised with float() and all others with
str(). -/
def invokeModel (predictf : PredictFn) (record : PyRecord) (model_name : String) : PyVal :=
  match collectFeatures record (featuresOf model_name) with
  | Option.none => PyVal.str "Insufficient Data"
  | some feature_vector =>
    match predictf feature_vector with
    | Except.ok (PredResult.num q) => PyVal.float q
    | Except.ok (PredResult.label s) => PyVal.str s
    | Except.error e => PyVal.str ("Prediction Error: " ++ e)

/-- The per-record prediction map: one entry per configured model, keyed
by the stripped model name. -/
def predRecord (models : ModelFns) (record : PyRecord) : PyRecord :=
  model_names.map (fun model_name =>
    (modelKey model_name, invokeModel (models model_name) record model_name))

/-- Batch-level overall health (lines 202-207 of predict.py), computed
over the stored complete_analysis dicts: analysis.get('machine_condition',
'Unknown') decides the insufficient-data case; the second branch reads
h.get('overall_health', 'Unknown'), and since complete_analysis dicts
carry no overall_health key that get always yields the default, so the
"Unhealthy" branch can never fire.  This is a function of the health
diagnoses alone. -/
def batch_overall_health (health_analysis : List CompleteAnalysis) : String :=
  let health_statuses := health_analysis.map
    (fun analysis => completeAnalysisGetS analysis "machine_condition" "Unknown")
  if health_statuses.all (fun status => status == "Unknown Condition - Insufficient Data") then
    "Unknown - Insufficient Data"
  else if (health_analysis.map
      (fun h => completeAnalysisGetS h "overall_health" "Unknown")).contains "Unhealthy" then
    "Unhealthy"
  else "Healthy"

/-- Does a prediction map contain the "Insufficient Data" sentinel among
its values (the Python test sentinel in p.values())? -/
def hasInsufficient (p : PyRecord) : Bool :=
  (p.map Prod.snd).contains (PyVal.str "Insufficient Data")

/-- The data_quality counters of the response. -/
structure DataQuality where
  total_records : ℕ
  complete_records : ℕ
  incomplete_records : ℕ
deriving DecidableEq

/-- The reconciled batch result (the result dict of predict_from_models):
consensus map with the injected overall_health key, the health analyses
(collapsed to a single object for a one-record batch), and the
data-quality counters. -/
structure BatchResult where
  predictions : List (String × PyVal)
  complete_health_analysis : CompleteAnalysis ⊕ List CompleteAnalysis
  data_quality : DataQuality

/-- Generate predictions with null value handling (predict_from_models
in predict.py).  As at line 196 of the source, only
health_info['complete_analysis'] is appended to the health_analysis
list; the per-record overall_health computed inside analyze_health is
discarded here. -/
def predict_from_models (models : ModelFns) (input_data_array : List PyRecord) : BatchResult :=
  let all_predictions := input_data_array.map (predRecord models)
  let health_analysis := input_data_array.map
    (fun input_data => (analyze_health input_data).complete_analysis)
  let aggregated_predictions := aggregate_predictions all_predictions
  let overall_health := batch_overall_health health_analysis
  { predictions := aggregated_predictions ++ [("overall_health", PyVal.str overall_health)]
    complete_health_analysis :=
      match health_analysis with
      | [h] => Sum.inl h
      | hs => Sum.inr hs
    data_quality :=
      { total_records := input_data_array.length
        complete_records := (all_predictions.filter (fun p => !(hasInsufficient p))).length
        incomplete_records := (all_predictions.filter hasInsufficient).length } }

/-- The top-level input: a parsed JSON value which is either an array of
records or something else. -/
inductive TopInput where
  | notArray : TopInput
  | array : List PyRecord → TopInput

/-- Validate input data with detailed error messages (validate_input in
predict.py).  The length checks are performed in source order: the
oversize check precedes the emptiness check. -/
def validate_input (input : TopInput) : Option String :=
  match input with
  | TopInput.notArray => some "Input must be an array"
  | TopInput.array l =>
    if l.length > 1800 then some "Input array exceeds maximum length of 1800"
    else if l.length = 0 then some "Input array cannot be empty"
    else Option.none

/-- Outcome of one run of the main block: either a structured error
object together with the process exit code (print of the error dict
followed by sys.exit(1)), or the successful batch result (printed with
exit code 0). -/
inductive MainOutcome where
  | errorOut : String → ℕ → MainOutcome
  | success : BatchResult → MainOutcome

/-- The main execution block of predict.py after JSON parsing: validate,
and only on success run the pipeline. -/
def runMain (models : ModelFns) (input : TopInput) : MainOutcome :=
  match input with
  | TopInput.notArray => MainOutcome.errorOut "Input must be an array" 1
  | TopInput.array l =>
    match validate_input (TopInput.array l) with
    | some err => MainOutcome.errorOut err 1
    | Option.none => MainOutcome.success (predict_from_models models l)

example : modelKey "temperature_model" = "temperature" := by decide
example : aggregate_predictions [[("temperature", PyVal.float 10)],
    [("temperature", PyVal.float 20)]] =
    [("temperature", PyVal.float 15), ("vibration", PyVal.str "Insufficient Data"),
     ("magnetic_flux", PyVal.str "Insufficient Data"),
     ("audible_sound", PyVal.str "Insufficient Data"),
     ("ultra_sound", PyVal.str "Insufficient Data")] := by decide
example : firstMost [PyVal.str "A", PyVal.str "B", PyVal.str "A", PyVal.str "B"] =
    some (PyVal.str "A") := by decide
example : aggModel "m" [[("m", PyVal.str "A")], [("m", PyVal.str "B")], [("m", PyVal.str "A")]] =
    PyVal.str "Insufficient Data" := by decide
example : aggModel "m" [[("m", PyVal.str "3")], [("m", PyVal.str "4")], [("m", PyVal.str "3")]] =
    PyVal.str "3" := by decide

/-- The surviving predictions of one model across the batch: the values
found under the model's key, filtered through is_valid_number (the
valid_predictions list of aggregate_predictions). -/
def modelSurvivors (key : String) (predictions_list : List PyRecord) : List PyVal :=
  (predictions_list.filterMap (List.lookup key)).filter is_valid_number

/-- Modelled from the spec (claim side, for refinement comparison): the
survivors obtained by discarding only the "Insufficient Data" and
"Prediction Error" sentinels, which is what the specification describes;
the code's filter is compared against this. -/
def specDiscardSentinels (l : List PyVal) : List PyVal :=
  l.filter (fun v =>
    match v with
    | PyVal.str s => !(s == "Insufficient Data" || "Prediction Error: ".isPrefixOf s)
    | _ => true)

/-- Fixture: a model family whose every predict call returns the number
five. -/
def demoModels : ModelFns := fun _ => fun _ => Except.ok (PredResult.num 5)

/-- Fixture: a model family whose every predict call raises an exception
with message boom. -/
def demoErrModels : ModelFns := fun _ => fun _ => Except.error "boom"

/-- Fixture: a record whose averaged temperature is seventy and averaged
vibration is one, hence a safe diagnosis. -/
def demoSafeRecord : PyRecord :=
  [("temperature_one", PyVal.float 70), ("vibration_x", PyVal.float 1)]

/-- Fixture: a record whose averaged temperature is 150 and averaged
vibration is 5, hence a repair-condition, per-record unhealthy
diagnosis. -/
def demoRepairRecord : PyRecord :=
  [("temperature_one", PyVal.float 150), ("vibration_x", PyVal.float 5)]

/-- Fixture: a record carrying the numeric string forty-two in every
sensor field used by any model. -/
def demoStrRecord : PyRecord :=
  [("temperature_one", PyVal.str "42"), ("temperature_two", PyVal.str "42"),
   ("vibration_x", PyVal.str "42"), ("vibration_y", PyVal.str "42"),
   ("vibration_z", PyVal.str "42"), ("magnetic_flux_x", PyVal.str "42"),
   ("magnetic_flux_y", PyVal.str "42"), ("magnetic_flux_z", PyVal.str "42"),
   ("audible_sound", PyVal.str "42"), ("ultra_sound", PyVal.str "42")]

/-- float() succeeds on every value accepted by is_valid_number. -/
theorem valid_pyFloat (v : PyVal) (h : is_valid_number v = true) : ∃ q, pyFloat v = some q := by
  cases v with
  | bool b => exact ⟨if b then 1 else 0, rfl⟩
  | int n => exact ⟨(n : ℚ), rfl⟩
  | float q => exact ⟨q, rfl⟩
  | str s =>
    simp only [is_valid_number] at h
    match hp : parseFloatLit s with
    | some (FloatLit.finite q) => exact ⟨q, by simp [pyFloat, hp]⟩
    | some FloatLit.nan => rw [hp] at h; simp at h
    | some FloatLit.inf => rw [hp] at h; simp at h
    | Option.none => rw [hp] at h; simp at h
  | null => simp [is_valid_number] at h
  | nan => simp [is_valid_number] at h
  | inf => simp [is_valid_number] at h
  | other => simp [is_valid_number] at h

/-- float() succeeds on every value of Python numeric type. -/
theorem numeric_pyFloat (v : PyVal) (h : isNumericType v = true) : ∃ q, pyFloat v = some q := by
  cases v with
  | bool b => exact ⟨if b then 1 else 0, rfl⟩
  | int n => exact ⟨(n : ℚ), rfl⟩
  | float q => exact ⟨q, rfl⟩
  | null => simp [isNumericType] at h
  | nan => simp [isNumericType] at h
  | inf => simp [isNumericType] at h
  | str s => simp [isNumericType] at h
  | other => simp [isNumericType] at h

/-- When float() succeeds on every entry, filterMap pyFloat keeps one
value per entry. -/
theorem filterMap_pyFloat_length (l : List PyVal) (h : ∀ v ∈ l, ∃ q, pyFloat v = some q) :
    (l.filterMap pyFloat).length = l.length := by
  induction l with
  | nil => rfl
  | cons v l ih =>
    obtain ⟨q, hq⟩ := h v (by simp)
    simp [List.filterMap_cons, hq, ih (fun x hx => h x (by simp [hx]))]

/-- The consensus map binds each stripped model name to the consensus of
that model. -/
theorem aggregate_lookup (predictions_list : List PyRecord) (name : String)
    (h : name ∈ model_names) :
    List.lookup (modelKey name) (aggregate_predictions predictions_list)
      = some (aggModel (modelKey name) predictions_list) := by
  fin_cases h <;> rfl

/-- Splitting view of a successful find?: everything before the found
element fails the predicate. -/
theorem find?_split {α : Type} {p : α → Bool} {m : α} :
    ∀ {l : List α}, l.find? p = some m →
      ∃ pre post, l = pre ++ m :: post ∧ (∀ x ∈ pre, p x = false) ∧ p m = true := by
  intro l
  induction l with
  | nil => intro h; cases h
  | cons a l ih =>
    intro h
    by_cases hpa : p a = true
    · rw [List.find?_cons_of_pos _ hpa] at h
      obtain rfl : a = m := by injection h
      exact ⟨[], l, rfl, by simp, hpa⟩
    · have hfa : p a = false := by simpa using hpa
      rw [List.find?_cons_of_neg _ hpa] at h
      obtain ⟨pre, post, rfl, hpre, hm⟩ := ih h
      refine ⟨a :: pre, post, rfl, ?_, hm⟩
      intro x hx
      rcases List.mem_cons.mp hx with rfl | hx
      · exact hfa
      · exact hpre x hx

/-- Any non-empty list has an element of maximal score. -/
theorem exists_max_score {α : Type} (f : α → ℕ) :
    ∀ (l : List α), l ≠ [] → ∃ m ∈ l, ∀ y ∈ l, f y ≤ f m := by
  intro l
  induction l with
  | nil => intro h; exact absurd rfl h
  | cons a l ih =>
    intro _
    rcases eq_or_ne l [] with rfl | hl
    · exact ⟨a, by simp⟩
    · obtain ⟨m, hm, hmax⟩ := ih hl
      by_cases hle : f m ≤ f a
      · refine ⟨a, by simp, ?_⟩
        intro y hy
        rcases List.mem_cons.mp hy with rfl | hy
        · exact le_refl _
        · exact (hmax y hy).trans hle
      · refine ⟨m, by simp [hm], ?_⟩
        intro y hy
        rcases List.mem_cons.mp hy with rfl | hy
        · exact le_of_not_le hle
        · exact hmax y hy

/-- Counter.most_common on a non-empty collection always yields a
winner. -/
theorem firstMost_isSome (l : List PyVal) (h : l ≠ []) : ∃ m, firstMost l = some m := by
  obtain ⟨m, hm, hmax⟩ := exists_max_score (occCount l) l h
  have : (l.find? (fun x => l.all (fun y => decide (occCount l y ≤ occCount l x)))).isSome := by
    rw [List.find?_isSome]
    refine ⟨m, hm, ?_⟩
    rw [List.all_eq_true]
    intro y hy
    exact decide_eq_true (hmax y hy)
  obtain ⟨v, hv⟩ := Option.isSome_iff_exists.mp this
  exact ⟨v, hv⟩

/-- The feature walk fails exactly when some required feature of the
record is missing or invalid. -/
theorem collectFeatures_eq_none (record : PyRecord) :
    ∀ (fs : List String), collectFeatures record fs = Option.none ↔
      ∃ f ∈ fs, is_valid_number (getVal record f) = false := by
  intro fs
  induction fs with
  | nil => simp [collectFeatures]
  | cons f fs ih =>
    by_cases hv : is_valid_number (getVal record f) = true
    · cases hrec : collectFeatures record fs with
      | none =>
        simp only [collectFeatures, hv, if_true, hrec]
        constructor
        · intro _
          obtain ⟨g, hg, hbad⟩ := ih.mp hrec
          exact ⟨g, by simp [hg], hbad⟩
        · intro _; trivial
      | some rest =>
        simp only [collectFeatures, hv, if_true, hrec]
        constructor
        · intro h; cases h
        · rintro ⟨g, hg, hbad⟩
          rcases List.mem_cons.mp hg with rfl | hg
          · rw [hv] at hbad; cases hbad
          · exact absurd (ih.mpr ⟨g, hg, hbad⟩) (by simp [hrec])
    · have hf : is_valid_number (getVal record f) = false := by simpa using hv
      simp only [collectFeatures, hf, if_false]
      exact ⟨fun _ => ⟨f, by simp, hf⟩, fun _ => rfl⟩

/-- The response's predictions object binds overall_health to the value
computed by batch_overall_health from the per-record diagnoses. -/
theorem lookup_overall_health (models : ModelFns) (rs : List PyRecord) :
    List.lookup "overall_health" (predict_from_models models rs).predictions
      = some (PyVal.str (batch_overall_health
          (rs.map (fun r => (analyze_health r).complete_analysis)))) := rfl

/-- The response's predictions object binds each stripped model name to
that model's consensus over the batch's per-record prediction maps. -/
theorem result_lookup_model (models : ModelFns) (rs : List PyRecord) (name : String)
    (h : name ∈ model_names) :
    List.lookup (modelKey name) (predict_from_models models rs).predictions
      = some (aggModel (modelKey name) (rs.map (predRecord models))) := by
  fin_cases h <;> rfl

/-- Dropping a prefix from a list that ends in an element not satisfying
the predicate keeps that final element. -/
theorem dropWhile_append_last {α : Type} (p : α → Bool) (c : α) (h : p c = false) :
    ∀ xs : List α, ∃ ys, List.dropWhile p (xs ++ [c]) = ys ++ [c] := by
  intro xs
  induction xs with
  | nil => exact ⟨[], by simp [List.dropWhile_cons, h]⟩
  | cons x xs ih =>
    by_cases hx : p x = true
    · obtain ⟨ys, hys⟩ := ih
      exact ⟨ys, by simpa [List.dropWhile_cons, hx] using hys⟩
    · exact ⟨x :: xs, by simp [List.dropWhile_cons, Bool.eq_false_iff.mpr hx]⟩

/-- Stripping whitespace from a list headed by a non-space character
keeps that head. -/
theorem stripChars_cons_not_space (c : Char) (cs : List Char) (h : isSpaceChar c = false) :
    ∃ t, stripChars (c :: cs) = c :: t := by
  unfold stripChars
  rw [List.dropWhile_cons]
  rw [h]
  simp only [Bool.false_eq_true, if_false, List.reverse_cons]
  obtain ⟨ys, hys⟩ := dropWhile_append_last isSpaceChar c h cs.reverse
  rw [hys, List.reverse_append]
  exact ⟨ys.reverse, by simp⟩

/-- splitFirst walks past a head that is not a separator. -/
theorem splitFirst_cons_neg (sep : Char → Bool) (c : Char) (l : List Char) (h : sep c = false) :
    splitFirst sep (c :: l) = (c :: (splitFirst sep l).1, (splitFirst sep l).2) := by
  simp [splitFirst, h]

/-- A decimal literal cannot start with a character that is not a digit,
a dot, or an exponent marker. -/
theorem parseUnsignedDecimal_head_bad (c : Char) (t : List Char) (hd : c.isDigit = false)
    (hdot : (c == '.') = false) (he : (c == 'e' || c == 'E') = false) :
    parseUnsignedDecimal (c :: t) = Option.none := by
  have h1 : splitFirst (fun x => x == 'e' || x == 'E') (c :: t)
      = (c :: (splitFirst (fun x => x == 'e' || x == 'E') t).1,
         (splitFirst (fun x => x == 'e' || x == 'E') t).2) :=
    splitFirst_cons_neg _ c t he
  have h2 : splitFirst (fun x => x == '.')
        (c :: (splitFirst (fun x => x == 'e' || x == 'E') t).1)
      = (c :: (splitFirst (fun x => x == '.')
            (splitFirst (fun x => x == 'e' || x == 'E') t).1).1,
         (splitFirst (fun x => x == '.')
            (splitFirst (fun x => x == 'e' || x == 'E') t).1).2) :=
    splitFirst_cons_neg _ c _ hdot
  simp only [parseUnsignedDecimal, h1, h2, List.all_cons, hd]
  simp

/-- No string of the form "Prediction Error: " followed by a message
parses as a float. -/
theorem parseFloatLit_sentinel (e : String) :
    parseFloatLit ("Prediction Error: " ++ e) = Option.none := by
  have hdata : ("Prediction Error: " ++ e).data = 'P' :: ("rediction Error: " ++ e).data := rfl
  obtain ⟨t, ht⟩ := stripChars_cons_not_space 'P' (("rediction Error: " ++ e).data) (by decide)
  have hsign : takeSign (stripChars ("Prediction Error: " ++ e).data) = (1, 'P' :: t) := by
    rw [hdata, ht]
    simp [takeSign]
  simp only [parseFloatLit, hsign]
  rw [List.map_cons]
  rw [show Char.toLower 'P' = 'p' from by decide]
  have hni : ¬(('p' :: t.map Char.toLower) = "inf".data ∨
      ('p' :: t.map Char.toLower) = "infinity".data) := by
    rintro (h | h) <;> (injection h with h1 _; exact absurd h1 (by decide))
  have hnn : ¬(('p' :: t.map Char.toLower) = "nan".data) := by
    intro h; injection h with h1 _; exact absurd h1 (by decide)
  rw [if_neg hni, if_neg hnn]
  rw [parseUnsignedDecimal_head_bad 'P' t (by decide) (by decide) (by decide)]

/-- The "Prediction Error" sentinel never passes the validity check, for
any carried message. -/
theorem sentinel_not_valid (e : String) :
    is_valid_number (PyVal.str ("Prediction Error: " ++ e)) = false := by
  simp [is_valid_number, parseFloatLit_sentinel]

/-- C3: evaluate_machine_condition returns the insufficient-data label
whenever either input is absent; otherwise it returns the safe label iff
temp < 80 and vib < 1.8, else the maintain label iff temp < 100 and
vib < 2.8, else the repair label; the thresholds are half-open, so
79.9 and 1.7 give the safe label while 80 and 1.7 give the maintain
label. -/
theorem machine_condition_spec :
    (∀ v : Option ℚ, evaluate_machine_condition Option.none v
        = "Unknown Condition - Insufficient Data") ∧
    (∀ t : Option ℚ, evaluate_machine_condition t Option.none
        = "Unknown Condition - Insufficient Data") ∧
    (∀ t v : ℚ,
      (evaluate_machine_condition (some t) (some v) = "Safe Condition" ↔ t < 80 ∧ v < 1.8) ∧
      (¬(t < 80 ∧ v < 1.8) →
        (evaluate_machine_condition (some t) (some v) = "Maintain Condition" ↔
          t < 100 ∧ v < 2.8)) ∧
      (¬(t < 80 ∧ v < 1.8) → ¬(t < 100 ∧ v < 2.8) →
        evaluate_machine_condition (some t) (some v) = "Repair Condition")) ∧
    evaluate_machine_condition (some 79.9) (some 1.7) = "Safe Condition" ∧
    evaluate_machine_condition (some 80) (some 1.7) = "Maintain Condition" := by
  refine ⟨fun v => by cases v <;> rfl, fun t => by cases t <;> rfl, ?_, by decide, by decide⟩
  intro t v
  unfold evaluate_machine_condition
  dsimp only
  split_ifs with h1 h2
  · exact ⟨iff_of_true rfl h1, fun hn => absurd h1 hn, fun hn _ => absurd h1 hn⟩
  · exact ⟨iff_of_false (by decide) h1, fun _ => iff_of_true rfl h2, fun _ hn => absurd h2 hn⟩
  · exact ⟨iff_of_false (by decide) h1, fun _ => iff_of_false (by decide) h2, fun _ _ => rfl⟩

/-- Witness for C3 at concrete boundary inputs: the maintain branch at
90 and 2, and the repair branch at 120 and 5. -/
theorem machine_condition_spec_witness :
    evaluate_machine_condition (some 90) (some 2) = "Maintain Condition" ∧
    evaluate_machine_condition (some 120) (some 5) = "Repair Condition" := by
  have h := machine_condition_spec
  constructor
  · exact ((h.2.2.1 90 2).2.1 (by norm_num)).mpr (by norm_num)
  · exact (h.2.2.1 120 5).2.2 (by norm_num) (by norm_num)

/-- C4: safe_mean averages exactly the entries accepted by
is_valid_number (each converted with float()), and returns the distinct
None sentinel, never the float zero and never a failure, exactly when no
entry is valid; on [10, "abc", 20] it yields 15 and on [] or
[null, "abc"] it yields the sentinel. -/
theorem safe_mean_spec :
    (∀ values : List PyVal,
      (safe_mean values = Option.none ↔ values.filter is_valid_number = []) ∧
      (values.filter is_valid_number ≠ [] →
        safe_mean values = some (((values.filter is_valid_number).filterMap pyFloat).sum
          / ((values.filter is_valid_number).length : ℚ)) ∧
        ((values.filter is_valid_number).filterMap pyFloat).length
          = (values.filter is_valid_number).length)) ∧
    safe_mean [PyVal.int 10, PyVal.str "abc", PyVal.int 20] = some 15 ∧
    safe_mean [] = Option.none ∧
    safe_mean [PyVal.null, PyVal.str "abc"] = Option.none := by
  refine ⟨?_, by decide, by decide, by decide⟩
  intro values
  have hlen : ((values.filter is_valid_number).filterMap pyFloat).length
      = (values.filter is_valid_number).length :=
    filterMap_pyFloat_length _ (fun v hv => valid_pyFloat v (List.of_mem_filter hv))
  have hiff : ((values.filter is_valid_number).filterMap pyFloat = [])
      ↔ (values.filter is_valid_number = []) := by
    constructor
    · intro h
      exact List.length_eq_zero.mp (by rw [← hlen, h]; rfl)
    · intro h
      rw [h]; rfl
  constructor
  · rcases eq_or_ne (values.filter is_valid_number) [] with hval | hval
    · have hfm : (values.filter is_valid_number).filterMap pyFloat = [] := hiff.mpr hval
      simp [safe_mean, hfm, hval]
    · have hfm : (values.filter is_valid_number).filterMap pyFloat ≠ [] :=
        fun h => hval (hiff.mp h)
      simp [safe_mean, List.isEmpty_iff, hfm, hval]
  · intro hval
    have hfm : (values.filter is_valid_number).filterMap pyFloat ≠ [] :=
      fun h => hval (hiff.mp h)
    refine ⟨?_, hlen⟩
    simp [safe_mean, List.isEmpty_iff, hfm, hlen]

/-- Witness for C4: a mix of valid and invalid entries averages exactly
the valid ones. -/
theorem safe_mean_spec_witness :
    safe_mean [PyVal.int 4, PyVal.null, PyVal.int 8] = some 6 := by
  have h := (safe_mean_spec.1 [PyVal.int 4, PyVal.null, PyVal.int 8]).2 (by decide)
  exact h.1.trans (by decide)

/-- Unfolding of aggModel through modelSurvivors. -/
theorem aggModel_eq (key : String) (predictions_list : List PyRecord) :
    aggModel key predictions_list =
      (if (modelSurvivors key predictions_list).isEmpty then PyVal.str "Insufficient Data"
       else if (modelSurvivors key predictions_list).all isNumericType then
         PyVal.float (pyMean (modelSurvivors key predictions_list))
       else
         match firstMost (modelSurvivors key predictions_list) with
         | some most_common => PyVal.str (pyStr most_common)
         | Option.none => PyVal.str "Insufficient Data") := rfl

/-- C2: for each configured model, if no record contributes a surviving
valid prediction the consensus is the "Insufficient Data" string, and if
the surviving set is non-empty and entirely of Python numeric type the
consensus is the arithmetic mean of the survivors. -/
theorem aggregate_empty_and_numeric (predictions_list : List PyRecord) (name : String)
    (hname : name ∈ model_names) :
    (modelSurvivors (modelKey name) predictions_list = [] →
      List.lookup (modelKey name) (aggregate_predictions predictions_list)
        = some (PyVal.str "Insufficient Data")) ∧
    (modelSurvivors (modelKey name) predictions_list ≠ [] →
      (modelSurvivors (modelKey name) predictions_list).all isNumericType = true →
      List.lookup (modelKey name) (aggregate_predictions predictions_list)
        = some (PyVal.float
            (((modelSurvivors (modelKey name) predictions_list).filterMap pyFloat).sum
              / ((modelSurvivors (modelKey name) predictions_list).length : ℚ))) ∧
      ((modelSurvivors (modelKey name) predictions_list).filterMap pyFloat).length
        = (modelSurvivors (modelKey name) predictions_list).length) := by
  have hagg := aggregate_lookup predictions_list name hname
  constructor
  · intro hempty
    rw [hagg, aggModel_eq, hempty]
    rfl
  · intro hne hall
    have hlen : ((modelSurvivors (modelKey name) predictions_list).filterMap pyFloat).length
        = (modelSurvivors (modelKey name) predictions_list).length :=
      filterMap_pyFloat_length _
        (fun v hv => numeric_pyFloat v (List.all_eq_true.mp hall v hv))
    refine ⟨?_, hlen⟩
    rw [hagg, aggModel_eq, if_neg (by simp [List.isEmpty_iff, hne]), if_pos hall]
    simp [pyMean, hlen]

/-- Witness for C2: a model with no surviving prediction aggregates to
the sentinel, and a model whose survivors are the floats ten and twenty
aggregates to fifteen. -/
theorem aggregate_empty_and_numeric_witness :
    List.lookup "vibration" (aggregate_predictions
      [[("temperature", PyVal.float 10)], [("temperature", PyVal.float 20)]])
      = some (PyVal.str "Insufficient Data") ∧
    List.lookup "temperature" (aggregate_predictions
      [[("temperature", PyVal.float 10)], [("temperature", PyVal.float 20)]])
      = some (PyVal.float 15) := by
  constructor
  · exact (aggregate_empty_and_numeric
      [[("temperature", PyVal.float 10)], [("temperature", PyVal.float 20)]]
      "vibration_model" (by simp [model_names])).1 (by decide)
  · exact ((aggregate_empty_and_numeric
      [[("temperature", PyVal.float 10)], [("temperature", PyVal.float 20)]]
      "temperature_model" (by simp [model_names])).2 (by decide) (by decide)).1.trans (by decide)

/-- C1 counterexample: with the categorical label predictions A, B, A
for one model, the survivors after discarding only the two sentinels are
A, B, A (non-empty, not numeric) and their most frequent value is A, yet
aggregate_predictions returns the "Insufficient Data" string for that
model, because its filter also discards categorical labels. -/
theorem aggregate_majority_counterexample :
    specDiscardSentinels ([[("temperature", PyVal.str "A")], [("temperature", PyVal.str "B")],
        [("temperature", PyVal.str "A")]].filterMap (List.lookup "temperature"))
      = [PyVal.str "A", PyVal.str "B", PyVal.str "A"] ∧
    ([PyVal.str "A", PyVal.str "B", PyVal.str "A"].all isNumericType) = false ∧
    firstMost [PyVal.str "A", PyVal.str "B", PyVal.str "A"] = some (PyVal.str "A") ∧
    List.lookup "temperature" (aggregate_predictions [[("temperature", PyVal.str "A")],
        [("temperature", PyVal.str "B")], [("temperature", PyVal.str "A")]])
      = some (PyVal.str "Insufficient Data") ∧
    PyVal.str "Insufficient Data" ≠ PyVal.str "A" := by decide

/-- C1 amended: the survivors of a model are the values passing
is_valid_number, which discards the two sentinels (shown for an
arbitrary carried message) but also every other string that does not
parse as a finite float, so purely categorical labels never survive;
when the survivors are non-empty and not all of Python numeric type
(e.g. numeric strings), the consensus is str() of the most frequent
survivor, with ties broken in favor of the survivor encountered first in
record order. -/
theorem aggregate_majority_amended (predictions_list : List PyRecord) (name : String)
    (hname : name ∈ model_names)
    (hfs : ∀ v ∈ modelSurvivors (modelKey name) predictions_list,
      (∃ q, v = PyVal.float q) ∨ (∃ s, v = PyVal.str s))
    (hne : modelSurvivors (modelKey name) predictions_list ≠ [])
    (hnotnum : (modelSurvivors (modelKey name) predictions_list).all isNumericType = false) :
    (∀ e : String, is_valid_number (PyVal.str ("Prediction Error: " ++ e)) = false) ∧
    is_valid_number (PyVal.str "Insufficient Data") = false ∧
    ∃ m pre post,
      List.lookup (modelKey name) (aggregate_predictions predictions_list)
        = some (PyVal.str (pyStr m)) ∧
      modelSurvivors (modelKey name) predictions_list = pre ++ m :: post ∧
      (∀ x ∈ modelSurvivors (modelKey name) predictions_list,
        occCount (modelSurvivors (modelKey name) predictions_list) x
          ≤ occCount (modelSurvivors (modelKey name) predictions_list) m) ∧
      (∀ x ∈ pre,
        occCount (modelSurvivors (modelKey name) predictions_list) x
          < occCount (modelSurvivors (modelKey name) predictions_list) m) := by
  have hagg := aggregate_lookup predictions_list name hname
  obtain ⟨m, hm⟩ := firstMost_isSome (modelSurvivors (modelKey name) predictions_list) hne
  obtain ⟨pre, post, hdecomp, hpre, hpm⟩ := find?_split hm
  have hmax : ∀ x ∈ modelSurvivors (modelKey name) predictions_list,
      occCount (modelSurvivors (modelKey name) predictions_list) x
        ≤ occCount (modelSurvivors (modelKey name) predictions_list) m := by
    intro x hx
    exact of_decide_eq_true (List.all_eq_true.mp hpm x hx)
  refine ⟨sentinel_not_valid, by decide, m, pre, post, ?_, hdecomp, hmax, ?_⟩
  · rw [hagg, aggModel_eq, if_neg (by simp [List.isEmpty_iff, hne]),
      if_neg (by simp [hnotnum]), hm]
  · intro x hx
    by_contra hcon
    have hle : occCount (modelSurvivors (modelKey name) predictions_list) m
        ≤ occCount (modelSurvivors (modelKey name) predictions_list) x :=
      le_of_not_lt hcon
    have hall : (modelSurvivors (modelKey name) predictions_list).all
        (fun y => decide (occCount (modelSurvivors (modelKey name) predictions_list) y
          ≤ occCount (modelSurvivors (modelKey name) predictions_list) x)) = true := by
      rw [List.all_eq_true]
      intro y hy
      exact decide_eq_true ((hmax y hy).trans hle)
    rw [hpre x hx] at hall
    cases hall

/-- Witness for the amended C1: a single-record batch whose temperature
model produced the numeric string three. -/
theorem aggregate_majority_amended_witness :
    (∀ e : String, is_valid_number (PyVal.str ("Prediction Error: " ++ e)) = false) ∧
    is_valid_number (PyVal.str "Insufficient Data") = false ∧
    ∃ m pre post,
      List.lookup (modelKey "temperature_model")
          (aggregate_predictions [[("temperature", PyVal.str "3")]])
        = some (PyVal.str (pyStr m)) ∧
      modelSurvivors (modelKey "temperature_model") [[("temperature", PyVal.str "3")]]
        = pre ++ m :: post ∧
      (∀ x ∈ modelSurvivors (modelKey "temperature_model") [[("temperature", PyVal.str "3")]],
        occCount (modelSurvivors (modelKey "temperature_model")
            [[("temperature", PyVal.str "3")]]) x
          ≤ occCount (modelSurvivors (modelKey "temperature_model")
              [[("temperature", PyVal.str "3")]]) m) ∧
      (∀ x ∈ pre,
        occCount (modelSurvivors (modelKey "temperature_model")
            [[("temperature", PyVal.str "3")]]) x
          < occCount (modelSurvivors (modelKey "temperature_model")
              [[("temperature", PyVal.str "3")]]) m) :=
  aggregate_majority_amended [[("temperature", PyVal.str "3")]] "temperature_model"
    (by simp [model_names])
    (by
      intro v hv
      rw [show modelSurvivors (modelKey "temperature_model") [[("temperature", PyVal.str "3")]]
          = [PyVal.str "3"] from by decide] at hv
      rw [List.mem_singleton.mp hv]
      exact Or.inr ⟨"3", rfl⟩)
    (by decide) (by decide)

/-- C5 (code bug): line 196 of predict.py appends only the
complete_analysis dicts, which carry no overall_health key, so line
206's lookup of overall_health with default Unknown is constantly
"Unknown" and the batch verdict can never be "Unhealthy": it is always
the insufficient-data label or "Healthy".  At the failing input
(temperature 150, vibration 5) the record's own diagnosis is
"Unhealthy" with machine condition "Repair Condition", yet the injected
batch overall_health is "Healthy", contradicting the claim. -/
theorem batch_health_dead_branch :
    (∀ h : CompleteAnalysis, completeAnalysisGetS h "overall_health" "Unknown" = "Unknown") ∧
    (∀ hs : List CompleteAnalysis,
      batch_overall_health hs = "Unknown - Insufficient Data" ∨
      batch_overall_health hs = "Healthy") ∧
    (analyze_health demoRepairRecord).overall_health = "Unhealthy" ∧
    (analyze_health demoRepairRecord).complete_analysis.machine_condition
      = "Repair Condition" ∧
    List.lookup "overall_health"
        (predict_from_models demoModels [demoRepairRecord]).predictions
      = some (PyVal.str "Healthy") := by
  refine ⟨fun h => rfl, ?_, by decide, by decide, by decide⟩
  intro hs
  unfold batch_overall_health
  by_cases hall : (hs.map (fun analysis =>
      completeAnalysisGetS analysis "machine_condition" "Unknown")).all
      (fun status => status == "Unknown Condition - Insufficient Data") = true
  · rw [if_pos hall]
    exact Or.inl rfl
  · rw [if_neg hall]
    have hc : ((hs.map (fun h => completeAnalysisGetS h "overall_health" "Unknown")).contains
        "Unhealthy") = false := by
      by_contra hb
      have hb' : ((hs.map
          (fun h => completeAnalysisGetS h "overall_health" "Unknown")).contains
          "Unhealthy") = true := by
        simpa using hb
      have hmem : "Unhealthy" ∈ hs.map
          (fun h => completeAnalysisGetS h "overall_health" "Unknown") := by
        simpa [List.contains] using hb'
      obtain ⟨a, _, ha⟩ := List.mem_map.mp hmem
      have hu : ("Unknown" : String) = "Unhealthy" := ha
      exact absurd hu (by decide)
    rw [hc]
    exact Or.inr (by simp)

/-- C6: for every record and model, an invalid required feature forces
the "Insufficient Data" sentinel without consulting the model (the
result is the same for any two prediction capabilities), and an
exception raised by the predict call is caught and replaced by the
"Prediction Error" string, so no model failure escapes the invoker. -/
theorem invoker_isolation (record : PyRecord) (model_name : String)
    (hname : model_name ∈ model_names) :
    (∀ p q : PredictFn,
      (∃ f ∈ featuresOf model_name, is_valid_number (getVal record f) = false) →
      invokeModel p record model_name = PyVal.str "Insufficient Data" ∧
      invokeModel p record model_name = invokeModel q record model_name) ∧
    (∀ (p : PredictFn) (feature_vector : List (String × ℚ)) (e : String),
      collectFeatures record (featuresOf model_name) = some feature_vector →
      p feature_vector = Except.error e →
      invokeModel p record model_name = PyVal.str ("Prediction Error: " ++ e)) := by
  constructor
  · intro p q hbad
    have hnone : collectFeatures record (featuresOf model_name) = Option.none :=
      (collectFeatures_eq_none record _).mpr hbad
    constructor
    · simp [invokeModel, hnone]
    · simp [invokeModel, hnone]
  · intro p feature_vector e hsome herr
    simp [invokeModel, hsome, herr]

/-- Witness for C6: the temperature model short-circuits on an empty
record, and a raising model on a fully valid record is converted to the
error sentinel. -/
theorem invoker_isolation_witness :
    invokeModel (demoErrModels "temperature_model") [] "temperature_model"
      = PyVal.str "Insufficient Data" ∧
    invokeModel (demoErrModels "temperature_model") demoStrRecord "temperature_model"
      = PyVal.str ("Prediction Error: " ++ "boom") := by
  constructor
  · exact ((invoker_isolation [] "temperature_model" (by simp [model_names])).1
      (demoErrModels "temperature_model") (demoModels "temperature_model")
      ⟨"temperature_one", by decide, by decide⟩).1
  · exact (invoker_isolation demoStrRecord "temperature_model" (by simp [model_names])).2
      (demoErrModels "temperature_model")
      [("temperature_one", 42), ("temperature_two", 42)] "boom" (by decide) rfl

/-- C7: a non-array input, an empty array, or an array longer than 1800
records each produce their own structured error message and exit code
one, independently of the loaded models (so no model is invoked), while
arrays of length one through 1800 pass validation. -/
theorem input_validation_gate (models altModels : ModelFns) (input : TopInput) :
    (input = TopInput.notArray →
      runMain models input = MainOutcome.errorOut "Input must be an array" 1) ∧
    (∀ l, input = TopInput.array l → l.length = 0 →
      runMain models input = MainOutcome.errorOut "Input array cannot be empty" 1) ∧
    (∀ l, input = TopInput.array l → l.length > 1800 →
      runMain models input
        = MainOutcome.errorOut "Input array exceeds maximum length of 1800" 1) ∧
    (["Input must be an array", "Input array cannot be empty",
      "Input array exceeds maximum length of 1800"] : List String).Nodup ∧
    (∀ l, input = TopInput.array l → 1 ≤ l.length → l.length ≤ 1800 →
      validate_input input = Option.none) ∧
    (∀ msg code, runMain models input = MainOutcome.errorOut msg code →
      runMain altModels input = MainOutcome.errorOut msg code) := by
  refine ⟨?_, ?_, ?_, by decide, ?_, ?_⟩
  · rintro rfl
    rfl
  · rintro l rfl h0
    rw [List.length_eq_zero.mp h0]
    rfl
  · rintro l rfl hlen
    simp [runMain, validate_input, hlen]
  · rintro l rfl h1 h1800
    have hgt : ¬(l.length > 1800) := by omega
    have hz : ¬(l.length = 0) := by omega
    simp [validate_input, hgt, hz]
  · intro msg code h
    cases input with
    | notArray =>
      simpa [runMain] using h
    | array l =>
      simp only [runMain] at h ⊢
      cases hv : validate_input (TopInput.array l) with
      | none => rw [hv] at h; simp at h
      | some err => rw [hv] at h; simpa using h

/-- Witness for C7: the empty batch and a batch of 1801 records are
rejected with their distinct messages, and a singleton batch passes
validation. -/
theorem input_validation_gate_witness :
    runMain demoModels (TopInput.array [])
      = MainOutcome.errorOut "Input array cannot be empty" 1 ∧
    runMain demoModels (TopInput.array (List.replicate 1801 []))
      = MainOutcome.errorOut "Input array exceeds maximum length of 1800" 1 ∧
    validate_input (TopInput.array [demoSafeRecord]) = Option.none := by
  refine ⟨?_, ?_, ?_⟩
  · exact (input_validation_gate demoModels demoModels _).2.1 [] rfl rfl
  · exact (input_validation_gate demoModels demoModels _).2.2.1 (List.replicate 1801 []) rfl
      (by rw [List.length_replicate]; omega)
  · exact (input_validation_gate demoModels demoModels _).2.2.2.2.1 [demoSafeRecord] rfl
      (by decide) (by decide)

/-- C8: the consensus map carries one entry for every configured model
(under its stripped key), and the pipeline injects an overall_health key
whose value is computed from the per-record health diagnoses alone, not
from the model consensus values. -/
theorem consensus_keys_and_injection (models : ModelFns) (records : List PyRecord) :
    (∀ name ∈ model_names, ∃ v,
      List.lookup (modelKey name)
        (aggregate_predictions (records.map (predRecord models))) = some v) ∧
    (∀ name ∈ model_names, ∃ v,
      List.lookup (modelKey name) (predict_from_models models records).predictions = some v) ∧
    List.lookup "overall_health" (predict_from_models models records).predictions
      = some (PyVal.str (batch_overall_health
          (records.map (fun r => (analyze_health r).complete_analysis)))) := by
  refine ⟨?_, ?_, lookup_overall_health models records⟩
  · intro name h
    exact ⟨_, aggregate_lookup (records.map (predRecord models)) name h⟩
  · intro name h
    exact ⟨_, result_lookup_model models records name h⟩

/-- Witness for C8 at the first configured model on a singleton batch. -/
theorem consensus_keys_and_injection_witness :
    ∃ v, List.lookup "temperature"
      (predict_from_models demoModels [demoSafeRecord]).predictions = some v :=
  (consensus_keys_and_injection demoModels [demoSafeRecord]).2.1
    "temperature_model" (by simp [model_names])

/-- C9: the data_quality counters partition the batch: a record is
complete iff its prediction map carries no "Insufficient Data" value,
and complete plus incomplete records equals the total, which is the
length of the input array. -/
theorem data_quality_partition (models : ModelFns) (records : List PyRecord) :
    (predict_from_models models records).data_quality.total_records = records.length ∧
    (predict_from_models models records).data_quality.complete_records
      = ((records.map (predRecord models)).filter (fun p => !(hasInsufficient p))).length ∧
    (predict_from_models models records).data_quality.incomplete_records
      = ((records.map (predRecord models)).filter hasInsufficient).length ∧
    (predict_from_models models records).data_quality.complete_records
      + (predict_from_models models records).data_quality.incomplete_records
      = (predict_from_models models records).data_quality.total_records := by
  refine ⟨rfl, rfl, rfl, ?_⟩
  show ((records.map (predRecord models)).filter (fun p => !(hasInsufficient p))).length
      + ((records.map (predRecord models)).filter hasInsufficient).length
      = records.length
  have hsplit := List.length_eq_length_filter_add
    (l := records.map (predRecord models)) hasInsufficient
  rw [List.length_map] at hsplit
  omega

/-- C10: the validity checker accepts booleans and numeric strings, so
such raw values enter safe_mean averages (true counts as one) and are
accepted as model feature inputs instead of being treated as missing. -/
theorem coerced_values_accepted :
    is_valid_number (PyVal.bool true) = true ∧
    is_valid_number (PyVal.str "42") = true ∧
    pyFloat (PyVal.bool true) = some 1 ∧
    safe_mean [PyVal.bool true, PyVal.str "42"] = some (43/2) ∧
    collectFeatures [("temperature_one", PyVal.bool true), ("temperature_two", PyVal.str "42")]
      (featuresOf "temperature_model")
      = some [("temperature_one", 1), ("temperature_two", 42)] ∧
    predRecord demoModels demoStrRecord =
      [("temperature", PyVal.float 5), ("vibration", PyVal.float 5),
       ("magnetic_flux", PyVal.float 5), ("audible_sound", PyVal.float 5),
       ("ultra_sound", PyVal.float 5)] := by decide
